import Mathlib

/-!
Shallow embedding of src/tiko/dataset.py: the DataSet hierarchy with its
cached dense/sparse materialization, the LabeledDataSet labels property,
the dedupe helper, and the dataset_from_config extraction pipeline.

Modelling conventions:
- Python exceptions are modelled with an explicit PyError type and Except.
- Feature-vector values are out of scope (the statistic registry and the
  numeric libraries are external per the spec), so a matrix entry is Unit;
  only shapes, names, flags and object structure matter to the claims.
- In-place mutation of the caller-supplied user_features list (features is
  bound to the very same list object on line 146 of the source) is modelled
  by returning the post-call value of that list explicitly.
- functools.lru_cache on DataSet.data is modelled as a per-instance memo
  table keyed by the sparse flag, threaded explicitly through calls; each
  freshly computed array object carries a fresh id drawn from a counter, so
  Python reference identity is id equality in the model.
-/

/-- Python exception kinds raised by the code under study. -/
inductive PyError where
  | attributeError
  | indexError
  | valueError (msg : String)
  | typeError (msg : String)
  | importError (msg : String)
deriving DecidableEq

/-- A segment of a signal: the default full slice (slice(None, None)) or an
explicit range. -/
inductive Segment where
  | whole
  | piece (lo hi : Nat)
deriving DecidableEq

/-- Whether a feature computation was built from a named statistic or from a
caller-supplied custom factory (a key of the feature_factory keyword map of
dataset_from_config, lines 163-167). -/
inductive StatOrFactory where
  | named (statistic : String)
  | custom (key : String)
deriving DecidableEq

/-- Modelled from the spec: the feature-computation object returned by the
feature factory (tiko/features.py is not under src/); it records the signal
and statistic it was built from and exposes a name and a nominal flag. -/
structure FeatureComputation where
  signal : String
  source : StatOrFactory
  name : String
  is_nominal : Bool
deriving DecidableEq

/-- Modelled from the spec: create_feature(signal, statistic_or_factory)
(tiko/features.py is not under src/) returns a feature computation exposing
.name and .is_nominal; the spec leaves their derivation to the factory, so
the model tags the feature with its inputs and a default underscore name.
No claim reads the name or flag of a config-derived feature computation. -/
def create_feature (signal : String) (sf : StatOrFactory) : FeatureComputation :=
  { signal := signal, source := sf,
    name := signal ++ "_" ++ (match sf with | .named s => s | .custom k => k),
    is_nominal := false }

/-- Modelled from the spec: the FeatureSpace abstraction (tiko/feature_space.py
is not under src/): built from feature computations and segments, it produces
one feature vector per segment and, per the spec statement that the column
count is read from the shape of the feature space, exposes a shape whose
second component is the number of features. -/
structure FeatureSpace where
  features : List FeatureComputation
  segments : List Segment
deriving DecidableEq

/-- list(feature_space): one row per segment, one entry per feature
computation (entry values are out of scope, modelled as Unit). -/
def FeatureSpace.toList (s : FeatureSpace) : List (List Unit) :=
  s.segments.map (fun _ => s.features.map (fun _ => ()))

/-- A Python value acceptable as the feature_space argument of
DataSet.__init__: an array-like exposing a shape (shape1 = none models a
shape tuple of length below 2, whose shape subscript raises IndexError),
a FeatureSpace instance, or a generator of rows. -/
inductive PyFeatureSpace where
  | arr (rows : List (List Unit)) (shape1 : Option Nat)
  | fspaceV (s : FeatureSpace)
  | gen (rows : List (List Unit))
deriving DecidableEq

/-- feature_space.shape with subscript 1 (line 22 of the source): an
array-like exposes its shape; a FeatureSpace exposes one with the number of
features as second component; a generator has no shape attribute, so the
lookup raises AttributeError. -/
def PyFeatureSpace.shape1 : PyFeatureSpace → Except PyError Nat
  | .arr _ s1 => (match s1 with | some n => .ok n | none => .error .indexError)
  | .fspaceV s => .ok s.features.length
  | .gen _ => .error .attributeError

/-- The row sequence an argument value produces when iterated or converted
to an array. -/
def PyFeatureSpace.rowsOf : PyFeatureSpace → List (List Unit)
  | .arr rows _ => rows
  | .fspaceV s => s.toList
  | .gen rows => rows

/-- What DataSet.__init__ stores in self.feature_space: the argument itself
(the array-like branch, stored by reference, not copied) or the list
materialized from it (the FeatureSpace / generator branch, lines 17-18). -/
inductive StoredFeatureSpace where
  | ref (p : PyFeatureSpace)
  | materialized (rows : List (List Unit))
deriving DecidableEq

/-- The DataSet state after a successful __init__. -/
structure DataSet where
  feature_space : StoredFeatureSpace
  feature_names : List String
  nominal_features : List Bool
deriving DecidableEq

/-- DataSet.__init__ (lines 16-32): materializes a FeatureSpace or generator
argument into a list and otherwise stores the argument by reference; reads
feature_count from the shape of the ORIGINAL argument; raises ValueError
when len(feature_names) differs from it; defaults nominal_features to
all-False of length feature_count when it is None, and stores a supplied
nominal_features sequence without any check. -/
def DataSet.init (feature_space : PyFeatureSpace) (feature_names : List String)
    (nominal_features : Option (List Bool)) : Except PyError DataSet :=
  match feature_space.shape1 with
  | .error e => .error e
  | .ok feature_count =>
    if feature_names.length ≠ feature_count then
      .error (.valueError "Number of features and feature_names do not match.")
    else
      .ok { feature_space :=
              (match feature_space with
               | .fspaceV s => .materialized s.toList
               | .gen rows => .materialized rows
               | .arr rows s1 => .ref (.arr rows s1)),
            feature_names := feature_names,
            nominal_features := nominal_features.getD (List.replicate feature_count false) }

/-- len(self.feature_space): the number of rows of the stored object. -/
def DataSet.rowCount (self : DataSet) : Nat :=
  match self.feature_space with
  | .ref p => p.rowsOf.length
  | .materialized rows => rows.length

/-- The row sequence np.array(self.feature_space) is built from. -/
def DataSet.storedRows (self : DataSet) : List (List Unit) :=
  match self.feature_space with
  | .ref p => p.rowsOf
  | .materialized rows => rows

/-- A materialized array object produced by DataSet.data: the id models
Python object identity, isSparse records whether it is the np.array or the
scipy lil_matrix rendering of the stored rows. -/
structure Mat where
  id : Nat
  isSparse : Bool
  rows : List (List Unit)
deriving DecidableEq

/-- The lru_cache state of DataSet.data for one instance: one slot per value
of the sparse flag, plus a counter supplying fresh object ids. -/
structure MatCache where
  nextId : Nat
  denseSlot : Option Mat
  sparseSlot : Option Mat
deriving DecidableEq

/-- The cache state of a freshly constructed DataSet: nothing computed. -/
def MatCache.empty : MatCache :=
  { nextId := 0, denseSlot := none, sparseSlot := none }

/-- DataSet.data (lines 34-44) under @lru_cache: a hit on the flag's slot
returns the stored object unchanged; a miss computes a fresh object (dense
np.array always succeeds; the sparse branch first imports scipy at call
time, raising ImportError when the capability is unavailable) and stores it
in the slot. -/
def DataSet.data (self : DataSet) (scipyAvailable : Bool) (sparse : Bool)
    (cache : MatCache) : Except PyError (Mat × MatCache) :=
  match sparse with
  | false =>
    match cache.denseSlot with
    | some m => .ok (m, cache)
    | none =>
      .ok ({ id := cache.nextId, isSparse := false, rows := self.storedRows },
           { nextId := cache.nextId + 1,
             denseSlot := some { id := cache.nextId, isSparse := false,
                                 rows := self.storedRows },
             sparseSlot := cache.sparseSlot })
  | true =>
    match cache.sparseSlot with
    | some m => .ok (m, cache)
    | none =>
      match scipyAvailable with
      | false => .error (.importError "Returning data as sparse requires scipy.")
      | true =>
        .ok ({ id := cache.nextId, isSparse := true, rows := self.storedRows },
             { nextId := cache.nextId + 1,
               denseSlot := cache.denseSlot,
               sparseSlot := some { id := cache.nextId, isSparse := true,
                                    rows := self.storedRows } })

/-- A Python value acceptable as labels: a string, a list of strings, or a
value that is neither (a tuple of strings, or None), on which the
isinstance checks of the labels property both fail. -/
inductive PyLabels where
  | str (s : String)
  | list (l : List String)
  | tuple (l : List String)
  | noneV
deriving DecidableEq

/-- The LabeledDataSet state after a successful __init__ (lines 60-63):
the base DataSet state plus the labels argument stored verbatim. -/
structure LabeledDataSet where
  toDataSet : DataSet
  _labels : PyLabels
deriving DecidableEq

/-- LabeledDataSet.__init__ (lines 61-63): the base __init__ followed by
storing the labels argument without validation. -/
def LabeledDataSet.init (feature_space : PyFeatureSpace) (feature_names : List String)
    (labels : PyLabels) (nominal_features : Option (List Bool)) :
    Except PyError LabeledDataSet :=
  match DataSet.init feature_space feature_names nominal_features with
  | .error e => .error e
  | .ok ds => .ok { toDataSet := ds, _labels := labels }

/-- The LabeledDataSet.labels property (lines 65-76): a str broadcasts to
one copy per row; a list must match the row count, checked at every read;
any other value raises TypeError. -/
def LabeledDataSet.labels (self : LabeledDataSet) : Except PyError (List String) :=
  match self._labels with
  | .str s => .ok (List.replicate self.toDataSet.rowCount s)
  | .list xs =>
    if xs.length ≠ self.toDataSet.rowCount then
      .error (.valueError "If labels are specified as a sequence, their length must equal the number of feature vectors in feature_space")
    else .ok xs
  | _ => .error (.typeError "Labels must be sequence of strings or a string.")

/-- The loop body of dedupe (lines 89-98), carrying the uniques set. -/
def dedupeAux {α : Type} [DecidableEq α] (uniques : List α) : List α → List α
  | [] => []
  | x :: xs =>
    if x ∈ uniques then dedupeAux (x :: uniques) xs
    else x :: dedupeAux (x :: uniques) xs

/-- dedupe (lines 89-98): the distinct elements of seq in first-occurrence
order. -/
def dedupe {α : Type} [DecidableEq α] (seq : List α) : List α := dedupeAux [] seq

/-- list(set(d) - set(s)) as used on line 159. CPython set iteration order
is unspecified; the model fixes the first-occurrence order of d (the order
the spec recommends). The claim settled with it uses only order-independent
properties of this list, together with its position after the explicit
statistics. -/
def pySetDiff (d s : List String) : List String :=
  dedupe (d.filter (fun x => decide (x ∉ s)))

/-- One entry of the config list: a dict with required signal_name and
optional further keys; Option.none models an absent key, read through
settings.get with the source's defaults. -/
structure ConfigEntry where
  signal_name : String
  display_name : Option String
  statistics : Option (List String)
  apply_default_statistics : Option Bool
  is_nominal : Option Bool
deriving DecidableEq

/-- Lines 153-161: the statistic list processed for one entry. With
apply_default_statistics (default True), the explicit list is extended by
the set difference of default_statistics and itself, set(None) raising
TypeError when default_statistics was omitted; otherwise an empty explicit
list raises ValueError naming the signal. -/
def entryStatistics (default_statistics : Option (List String)) (e : ConfigEntry) :
    Except PyError (List String) :=
  if e.apply_default_statistics.getD true then
    match default_statistics with
    | none => .error (.typeError "NoneType object is not iterable")
    | some d => .ok (e.statistics.getD [] ++ pySetDiff d (e.statistics.getD []))
  else if (e.statistics.getD []).isEmpty then
    .error (.valueError ("No statistics defined for " ++ e.signal_name))
  else .ok (e.statistics.getD [])

/-- The value entryStatistics returns on its success paths, as a total
function (used to state what the loop appends). -/
def entryStatsVal (default_statistics : Option (List String)) (e : ConfigEntry) :
    List String :=
  if e.apply_default_statistics.getD true then
    e.statistics.getD [] ++ pySetDiff (default_statistics.getD []) (e.statistics.getD [])
  else e.statistics.getD []

/-- Lines 163-167: a statistic identifier that is a key of the
feature_factory keyword map dispatches to the custom factory, any other one
to the named statistic. -/
def statDispatch (factoryKeys : List String) (s : String) : StatOrFactory :=
  if s ∈ factoryKeys then .custom s else .named s

/-- The body of the config loop (lines 150-171) for one entry: look up the
signal, resolve the statistic list, then append in lockstep the created
feature computations, the display_name-underscore-statistic names, and the
is_nominal flags to the three running lists. -/
def processEntry (default_statistics : Option (List String)) (factoryKeys : List String)
    (dataF : String → String)
    (acc : List FeatureComputation × List String × List Bool) (e : ConfigEntry) :
    Except PyError (List FeatureComputation × List String × List Bool) :=
  match entryStatistics default_statistics e with
  | .error err => .error err
  | .ok stats =>
    .ok (acc.1 ++ stats.map (fun s =>
           create_feature (dataF e.signal_name) (statDispatch factoryKeys s)),
         acc.2.1 ++ stats.map (fun s => e.display_name.getD e.signal_name ++ "_" ++ s),
         acc.2.2 ++ stats.map (fun _ => e.is_nominal.getD false))

/-- The config loop of dataset_from_config over all entries. -/
def runConfig (default_statistics : Option (List String)) (factoryKeys : List String)
    (dataF : String → String) :
    List ConfigEntry → List FeatureComputation × List String × List Bool →
    Except PyError (List FeatureComputation × List String × List Bool)
  | [], acc => .ok acc
  | e :: rest, acc =>
    match processEntry default_statistics factoryKeys dataF acc e with
    | .error err => .error err
    | .ok acc2 => runConfig default_statistics factoryKeys dataF rest acc2

/-- np.array(rows).shape with subscript 1: defined for a nonempty
rectangular list of rows; an empty list gives a one-dimensional array whose
shape subscript 1 raises IndexError (modelled as none). -/
def npShape1 (rows : List (List Unit)) : Option Nat :=
  match rows with
  | [] => none
  | r :: rs => if rs.all (fun q => q.length == r.length) then some r.length else none

/-- The observable outcome of dataset_from_config: the post-call value of
the caller's user_features list (mutated in place by the loop), the
FeatureSpace built on line 173, the DataSet constructed from the
materialized array, and the labels value it stores when labelled. -/
structure ConfigResult where
  user_features_after : List FeatureComputation
  space : FeatureSpace
  ds : DataSet
  dsLabels : Option PyLabels
deriving DecidableEq

/-- dataset_from_config (lines 110-184). features is bound to the very
user_features list object (line 146), so every append of the loop mutates
the list the caller passed; user_features_after is its value after the
call, and FeatureSpace(*user_features, segments=segments) on line 173
therefore receives the appended config-derived features as well. data is
modelled as a total lookup function (the hasattr check on line 137 then
passes), and the warning of line 134 has no effect on the result. The
constructed dataset stores the labels argument when one was given,
mirroring the UnlabeledDataSet / LabeledDataSet branch of lines 177-182. -/
def dataset_from_config (config : List ConfigEntry) (dataF : String → String)
    (segments : Option (List Segment)) (user_features : Option (List FeatureComputation))
    (default_statistics : Option (List String)) (labels : Option PyLabels)
    (factoryKeys : List String) : Except PyError ConfigResult :=
  match runConfig default_statistics factoryKeys dataF config
      (user_features.getD [],
       (user_features.getD []).map (fun f => f.name),
       (user_features.getD []).map (fun f => f.is_nominal)) with
  | .error err => .error err
  | .ok (features, feature_names, nominal_features) =>
    match DataSet.init
        (.arr { features := features,
                segments := segments.getD [Segment.whole] : FeatureSpace}.toList
          (npShape1 { features := features,
                      segments := segments.getD [Segment.whole] : FeatureSpace}.toList))
        feature_names (some nominal_features) with
    | .error err => .error err
    | .ok ds =>
      .ok { user_features_after := features,
            space := { features := features, segments := segments.getD [Segment.whole] },
            ds := ds, dsLabels := labels }

/-- What the config loop appends to the three running lists, entry by
entry, on the success path: the created feature computations, the joined
names, and the repeated nominal flags. -/
def configDerived (dflt : Option (List String)) (keys : List String)
    (dataF : String → String) :
    List ConfigEntry → List FeatureComputation × List String × List Bool
  | [] => ([], [], [])
  | e :: rest =>
    ((entryStatsVal dflt e).map (fun s =>
        create_feature (dataF e.signal_name) (statDispatch keys s))
       ++ (configDerived dflt keys dataF rest).1,
     (entryStatsVal dflt e).map (fun s => e.display_name.getD e.signal_name ++ "_" ++ s)
       ++ (configDerived dflt keys dataF rest).2.1,
     (entryStatsVal dflt e).map (fun _ => e.is_nominal.getD false)
       ++ (configDerived dflt keys dataF rest).2.2)

/-- Membership in dedupeAux: an element appears iff it appears in the
remaining input and is not already among the uniques. -/
theorem mem_dedupeAux {α : Type} [DecidableEq α] (l : List α) :
    ∀ (u : List α) (x : α), x ∈ dedupeAux u l ↔ (x ∈ l ∧ x ∉ u) := by
  induction l with
  | nil => intro u x; simp [dedupeAux]
  | cons y ys ih =>
    intro u x
    by_cases hy : y ∈ u
    · rw [dedupeAux, if_pos hy, ih]
      by_cases hxy : x = y
      · subst hxy; simp [hy]
      · simp [hxy, List.mem_cons]
    · rw [dedupeAux, if_neg hy]
      by_cases hxy : x = y
      · subst hxy; simp [hy, ih]
      · simp [hxy, List.mem_cons, ih]


/-- dedupeAux never repeats an element. -/
theorem dedupeAux_nodup {α : Type} [DecidableEq α] (l : List α) :
    ∀ u : List α, (dedupeAux u l).Nodup := by
  induction l with
  | nil => intro u; simp [dedupeAux]
  | cons y ys ih =>
    intro u
    by_cases hy : y ∈ u
    · rw [dedupeAux, if_pos hy]; exact ih _
    · rw [dedupeAux, if_neg hy]
      refine List.nodup_cons.mpr ⟨?_, ih _⟩
      rw [mem_dedupeAux]
      rintro ⟨-, h2⟩
      exact h2 (List.mem_cons_self _ _)

/-- Membership in the modelled set difference of line 159. -/
theorem pySetDiff_mem (d s : List String) (x : String) :
    x ∈ pySetDiff d s ↔ (x ∈ d ∧ x ∉ s) := by
  unfold pySetDiff dedupe
  rw [mem_dedupeAux]
  simp [List.mem_filter]

/-- The modelled set difference of line 159 has no duplicates. -/
theorem pySetDiff_nodup (d s : List String) : (pySetDiff d s).Nodup :=
  dedupeAux_nodup _ _

/-- Inversion of a successful DataSet.__init__: the names are stored as
given and nominal_features is the given sequence, or the all-false default
of the validated length when omitted. -/
theorem DataSet.init_ok (fs : PyFeatureSpace) (names : List String)
    (nominal : Option (List Bool)) (ds : DataSet)
    (h : DataSet.init fs names nominal = .ok ds) :
    ds.feature_names = names
    ∧ ds.nominal_features = nominal.getD (List.replicate names.length false) := by
  unfold DataSet.init at h
  cases hs : fs.shape1 with
  | error e => rw [hs] at h; cases h
  | ok n =>
    rw [hs] at h
    dsimp only at h
    by_cases hlen : names.length ≠ n
    · rw [if_pos hlen] at h; cases h
    · rw [if_neg hlen] at h
      injection h with h2
      subst h2
      push_neg at hlen
      exact ⟨rfl, by rw [hlen]⟩

/-- A successful entryStatistics returns exactly the total success-path
value entryStatsVal. -/
theorem entryStatistics_ok (dflt : Option (List String)) (e : ConfigEntry)
    (stats : List String) (h : entryStatistics dflt e = .ok stats) :
    stats = entryStatsVal dflt e := by
  unfold entryStatistics at h
  unfold entryStatsVal
  cases hads : e.apply_default_statistics.getD true with
  | true =>
    rw [hads] at h
    simp only [if_true] at h ⊢
    cases dflt with
    | none => cases h
    | some d =>
      injection h with h2
      rw [← h2]
      rfl
  | false =>
    rw [hads] at h
    simp only [Bool.false_eq_true, if_false] at h ⊢
    cases hemp : (e.statistics.getD []).isEmpty with
    | true => rw [hemp] at h; simp at h
    | false =>
      rw [hemp] at h
      simp only [Bool.false_eq_true, if_false] at h
      injection h with h2
      rw [← h2]

/-- A successful run of the config loop extends each of the three running
lists by exactly the per-entry contributions of configDerived. -/
theorem runConfig_ok (dflt : Option (List String)) (keys : List String)
    (dataF : String → String) (config : List ConfigEntry) :
    ∀ (acc res : List FeatureComputation × List String × List Bool),
    runConfig dflt keys dataF config acc = .ok res →
    res = (acc.1 ++ (configDerived dflt keys dataF config).1,
           acc.2.1 ++ (configDerived dflt keys dataF config).2.1,
           acc.2.2 ++ (configDerived dflt keys dataF config).2.2) := by
  induction config with
  | nil =>
    intro acc res h
    unfold runConfig at h
    injection h with h2
    subst h2
    simp [configDerived]
  | cons e rest ih =>
    intro acc res h
    unfold runConfig at h
    cases hp : processEntry dflt keys dataF acc e with
    | error err => rw [hp] at h; cases h
    | ok acc2 =>
      rw [hp] at h
      dsimp only at h
      have hrest := ih acc2 res h
      unfold processEntry at hp
      cases hs : entryStatistics dflt e with
      | error err => rw [hs] at hp; cases hp
      | ok stats =>
        rw [hs] at hp
        dsimp only at hp
        injection hp with hacc2
        have hstats := entryStatistics_ok dflt e stats hs
        subst hstats
        rw [hrest, ← hacc2]
        simp [configDerived, List.append_assoc]

/-- The three components of configDerived have equal lengths. -/
theorem configDerived_length (dflt : Option (List String)) (keys : List String)
    (dataF : String → String) (config : List ConfigEntry) :
    (configDerived dflt keys dataF config).1.length
        = (configDerived dflt keys dataF config).2.1.length
    ∧ (configDerived dflt keys dataF config).2.1.length
        = (configDerived dflt keys dataF config).2.2.length := by
  induction config with
  | nil => simp [configDerived]
  | cons e rest ih => simp [configDerived, ih.1, ih.2]

/-- Inversion of a successful dataset_from_config: the post-call value of
the caller's user_features list is its original value followed by all
config-derived feature computations, the FeatureSpace of line 173 is built
from exactly that list, and the returned dataset carries the user-feature
names and nominal flags followed by the config-derived ones. -/
theorem dataset_from_config_fields (config : List ConfigEntry)
    (dataF : String → String) (segments : Option (List Segment))
    (user_features : Option (List FeatureComputation))
    (dflt : Option (List String)) (labels : Option PyLabels)
    (keys : List String) (r : ConfigResult)
    (h : dataset_from_config config dataF segments user_features dflt labels keys
          = .ok r) :
    r.user_features_after
        = (user_features.getD []) ++ (configDerived dflt keys dataF config).1
    ∧ r.space.features = r.user_features_after
    ∧ r.ds.feature_names
        = (user_features.getD []).map (fun f => f.name)
            ++ (configDerived dflt keys dataF config).2.1
    ∧ r.ds.nominal_features
        = (user_features.getD []).map (fun f => f.is_nominal)
            ++ (configDerived dflt keys dataF config).2.2
    ∧ r.dsLabels = labels := by
  unfold dataset_from_config at h
  cases hr : runConfig dflt keys dataF config
      (user_features.getD [],
       (user_features.getD []).map (fun f => f.name),
       (user_features.getD []).map (fun f => f.is_nominal)) with
  | error err => rw [hr] at h; cases h
  | ok trip =>
    rw [hr] at h
    have htrip := runConfig_ok dflt keys dataF config _ trip hr
    obtain ⟨features, feature_names, nominal_features⟩ := trip
    dsimp only at h
    cases hi : DataSet.init
        (.arr { features := features,
                segments := segments.getD [Segment.whole] : FeatureSpace}.toList
          (npShape1 { features := features,
                      segments := segments.getD [Segment.whole] : FeatureSpace}.toList))
        feature_names (some nominal_features) with
    | error err => rw [hi] at h; cases h
    | ok ds =>
      rw [hi] at h
      dsimp only at h
      injection h with h2
      subst h2
      obtain ⟨hds1, hds2⟩ := DataSet.init_ok _ _ _ _ hi
      injection htrip with hf htrip2
      injection htrip2 with hn hb
      dsimp only at hf hn hb ⊢
      subst hf
      refine ⟨rfl, rfl, ?_, ?_, rfl⟩
      · rw [hds1, hn]
      · rw [hds2, hb]
        rfl

/-- Claim C2 (code-bug evidence): a generator-backed feature space with a
matching feature_names length does not construct successfully; line 22
reads .shape on the original generator argument, which has no shape
attribute, so __init__ raises AttributeError instead of materializing the
producer and validating lengths. -/
theorem C2_generator_shape_attribute_error :
    DataSet.init (.gen [[()], [()]]) ["x"] none = .error .attributeError := rfl

/-- Claim C3 (counterexample): constructing a DataSet with two feature
names but a supplied nominal_features sequence of length one succeeds and
stores the mismatched sequence as-is, instead of failing with a
ValidationError as the claim states. -/
theorem C3_counterexample :
    DataSet.init (.arr [[(), ()], [(), ()]] (some 2)) ["a", "b"] (some [true])
      = .ok { feature_space := .ref (.arr [[(), ()], [(), ()]] (some 2)),
              feature_names := ["a", "b"], nominal_features := [true] } := rfl

/-- Claim C3 (amended): when nominal_features is omitted it defaults to an
all-false sequence of length feature_count, which equals
len(feature_names); a supplied nominal_features sequence is stored without
any length validation, so a mismatched one does not raise. -/
theorem C3_nominal_default_only (fs : PyFeatureSpace) (names : List String) :
    (∀ ds, DataSet.init fs names none = .ok ds →
        ds.nominal_features = List.replicate names.length false
        ∧ ds.nominal_features.length = ds.feature_names.length)
    ∧ (∀ nf ds, DataSet.init fs names (some nf) = .ok ds →
        ds.nominal_features = nf) := by
  constructor
  · intro ds h
    obtain ⟨h1, h2⟩ := DataSet.init_ok fs names none ds h
    rw [h1, h2]
    simp
  · intro nf ds h
    exact (DataSet.init_ok fs names (some nf) ds h).2

/-- Claim C3 witness: evaluating the amended statement on a concrete
one-column DataSet built with the nominal_features default. -/
theorem C3_witness :
    (DataSet.init (.arr [[()]] (some 1)) ["a"] none
      = .ok { feature_space := .ref (.arr [[()]] (some 1)), feature_names := ["a"],
              nominal_features := [false] })
    ∧ ({ feature_space := .ref (.arr [[()]] (some 1)), feature_names := ["a"],
         nominal_features := [false] } : DataSet).nominal_features
        = List.replicate (["a"] : List String).length false
    ∧ ({ feature_space := .ref (.arr [[()]] (some 1)), feature_names := ["a"],
         nominal_features := [false] } : DataSet).nominal_features.length
        = ({ feature_space := .ref (.arr [[()]] (some 1)), feature_names := ["a"],
             nominal_features := [false] } : DataSet).feature_names.length :=
  ⟨rfl, (C3_nominal_default_only (.arr [[()]] (some 1)) ["a"]).1
    { feature_space := .ref (.arr [[()]] (some 1)), feature_names := ["a"],
      nominal_features := [false] } rfl⟩

/-- Claim C8 (counterexample): a tuple of strings is an ordered sequence
whose length equals the row count, yet reading labels raises TypeError
(the code tests isinstance(list), not a general sequence), instead of
returning the sequence unchanged as the claim states. -/
theorem C8_counterexample :
    ({ toDataSet := { feature_space := .materialized [[()], [()]],
                      feature_names := ["x"], nominal_features := [false] },
       _labels := .tuple ["a", "b"] } : LabeledDataSet).labels
      = .error (.typeError "Labels must be sequence of strings or a string.") := rfl

/-- Claim C8 (amended): reading labels returns the stored single string
repeated row_count times when _labels is a string; returns _labels
unchanged when it is a LIST whose length equals the row count and raises
ValueError on a mismatched list, the check happening at each read while
construction stores any labels value unvalidated; any other value,
including a tuple of strings, raises TypeError. -/
theorem C8_labels_property (self : LabeledDataSet) :
    (∀ s, self._labels = .str s →
        self.labels = .ok (List.replicate self.toDataSet.rowCount s))
    ∧ (∀ xs, self._labels = .list xs → xs.length = self.toDataSet.rowCount →
        self.labels = .ok xs)
    ∧ (∀ xs, self._labels = .list xs → xs.length ≠ self.toDataSet.rowCount →
        self.labels = .error (.valueError "If labels are specified as a sequence, their length must equal the number of feature vectors in feature_space"))
    ∧ (∀ xs, self._labels = .tuple xs →
        self.labels = .error (.typeError "Labels must be sequence of strings or a string."))
    ∧ (∀ fs names nominal out,
        LabeledDataSet.init fs names self._labels nominal = .ok out →
        out._labels = self._labels) := by
  refine ⟨?_, ?_, ?_, ?_, ?_⟩
  · intro s hs
    unfold LabeledDataSet.labels
    rw [hs]
  · intro xs hxs hlen
    unfold LabeledDataSet.labels
    rw [hxs]
    simp [hlen]
  · intro xs hxs hlen
    unfold LabeledDataSet.labels
    rw [hxs]
    simp [hlen]
  · intro xs hxs
    unfold LabeledDataSet.labels
    rw [hxs]
  · intro fs names nominal out h
    unfold LabeledDataSet.init at h
    cases hd : DataSet.init fs names nominal with
    | error e => rw [hd] at h; cases h
    | ok ds =>
      rw [hd] at h
      dsimp only at h
      injection h with h2
      rw [← h2]

/-- Claim C8 witness: evaluating the amended statement on a concrete
labelled dataset whose labels value is the single string "pos" and whose
feature space has two rows. -/
theorem C8_witness :
    ({ toDataSet := { feature_space := .materialized [[()], [()]],
                      feature_names := ["x"], nominal_features := [false] },
       _labels := .str "pos" } : LabeledDataSet).labels
      = .ok (List.replicate
          ({ toDataSet := { feature_space := .materialized [[()], [()]],
                            feature_names := ["x"], nominal_features := [false] },
             _labels := .str "pos" } : LabeledDataSet).toDataSet.rowCount "pos") :=
  (C8_labels_property
    { toDataSet := { feature_space := .materialized [[()], [()]],
                     feature_names := ["x"], nominal_features := [false] },
      _labels := .str "pos" }).1 "pos" rfl

/-- Claim C9: after a call of DataSet.data has returned an object for a
given value of the sparse flag, a repeated call with the same flag returns
the very same cached object (same identity) and leaves the cache unchanged,
so the result is computed once and reused. -/
theorem C9_repeated_materialization_cached (self : DataSet) (scipy sparse : Bool)
    (c c2 : MatCache) (m : Mat)
    (h : self.data scipy sparse c = .ok (m, c2)) :
    self.data scipy sparse c2 = .ok (m, c2) := by
  cases sparse with
  | false =>
    unfold DataSet.data at h ⊢
    dsimp only at h ⊢
    cases hd : c.denseSlot with
    | some m0 =>
      rw [hd] at h
      simp only [Except.ok.injEq, Prod.mk.injEq] at h
      obtain ⟨hm, hc⟩ := h
      subst hm
      subst hc
      rw [hd]
    | none =>
      rw [hd] at h
      simp only [Except.ok.injEq, Prod.mk.injEq] at h
      obtain ⟨hm, hc⟩ := h
      subst hm
      subst hc
      rfl
  | true =>
    unfold DataSet.data at h ⊢
    dsimp only at h ⊢
    cases hs : c.sparseSlot with
    | some m0 =>
      rw [hs] at h
      simp only [Except.ok.injEq, Prod.mk.injEq] at h
      obtain ⟨hm, hc⟩ := h
      subst hm
      subst hc
      rw [hs]
    | none =>
      rw [hs] at h
      cases scipy with
      | false => cases h
      | true =>
        simp only [Except.ok.injEq, Prod.mk.injEq] at h
        obtain ⟨hm, hc⟩ := h
        subst hm
        subst hc
        rfl

/-- Claim C9 witness: the second dense materialization of a concrete
DataSet returns the identical object created by the first call, with the
cache unchanged. -/
theorem C9_witness :
    ({ feature_space := .materialized [[()]], feature_names := ["x"],
       nominal_features := [false] } : DataSet).data true false
      { nextId := 1,
        denseSlot := some { id := 0, isSparse := false, rows := [[()]] },
        sparseSlot := none }
      = .ok ({ id := 0, isSparse := false, rows := [[()]] },
             { nextId := 1,
               denseSlot := some { id := 0, isSparse := false, rows := [[()]] },
               sparseSlot := none }) :=
  C9_repeated_materialization_cached _ true false MatCache.empty _ _ rfl

/-- Claim C10: dense materialization always succeeds, while an uncached
sparse materialization succeeds exactly when the scipy capability is
available in the environment at call time, raising ImportError otherwise. -/
theorem C10_dense_always_sparse_needs_scipy (self : DataSet) (scipy : Bool)
    (c : MatCache) (h : c.sparseSlot = none) :
    (∃ r, self.data scipy false c = .ok r)
    ∧ (scipy = false →
        self.data scipy true c
          = .error (.importError "Returning data as sparse requires scipy."))
    ∧ (scipy = true → ∃ r, self.data scipy true c = .ok r) := by
  refine ⟨?_, ?_, ?_⟩
  · cases hd : c.denseSlot with
    | some m0 =>
      refine ⟨(m0, c), ?_⟩
      unfold DataSet.data
      dsimp only
      rw [hd]
    | none =>
      refine ⟨({ id := c.nextId, isSparse := false, rows := self.storedRows },
               { nextId := c.nextId + 1,
                 denseSlot := some { id := c.nextId, isSparse := false,
                                     rows := self.storedRows },
                 sparseSlot := c.sparseSlot }), ?_⟩
      unfold DataSet.data
      dsimp only
      rw [hd]
  · intro hsc
    subst hsc
    unfold DataSet.data
    dsimp only
    rw [h]
  · intro hsc
    subst hsc
    refine ⟨({ id := c.nextId, isSparse := true, rows := self.storedRows },
             { nextId := c.nextId + 1,
               denseSlot := c.denseSlot,
               sparseSlot := some { id := c.nextId, isSparse := true,
                                    rows := self.storedRows } }), ?_⟩
    unfold DataSet.data
    dsimp only
    rw [h]

/-- Claim C10 witness: on a concrete DataSet with an empty cache and scipy
unavailable, dense materialization succeeds and sparse materialization
raises ImportError. -/
theorem C10_witness :
    (∃ r, ({ feature_space := .materialized [[()]], feature_names := ["x"],
             nominal_features := [false] } : DataSet).data false false MatCache.empty
            = .ok r)
    ∧ (false = false →
        ({ feature_space := .materialized [[()]], feature_names := ["x"],
           nominal_features := [false] } : DataSet).data false true MatCache.empty
          = .error (.importError "Returning data as sparse requires scipy."))
    ∧ (false = true →
        ∃ r, ({ feature_space := .materialized [[()]], feature_names := ["x"],
                nominal_features := [false] } : DataSet).data false true MatCache.empty
               = .ok r) :=
  C10_dense_always_sparse_needs_scipy _ false MatCache.empty rfl

/-- Claim C1 (counterexample): with one user feature and one config entry
declaring the statistic mean on signal s1, the FeatureSpace has TWO
columns and the returned dataset names both features, so the config-derived
feature does contribute a column to the materialized matrix, contrary to
the claim that only user_features columns are materialized. -/
theorem C1_counterexample :
    Except.map (fun r => (r.space.features.length, r.ds.feature_names))
      (dataset_from_config
        [{ signal_name := "s1", display_name := none, statistics := some ["mean"],
           apply_default_statistics := some false, is_nominal := none }]
        (fun _ => "sig") none
        (some [{ signal := "u", source := .named "m", name := "f0",
                 is_nominal := false }])
        none none [])
      = .ok (2, ["f0", "s1_mean"]) := rfl

/-- Claim C1 (amended): the FeatureSpace of line 173 is built from the
user_features list as already mutated in place by the config loop, so the
config-derived feature computations DO contribute columns to the
materialized matrix; their names and nominal flags are appended to the
metadata in lockstep, and the column count equals the metadata length. -/
theorem C1_config_features_reach_matrix (config : List ConfigEntry)
    (dataF : String → String) (segments : Option (List Segment))
    (uf : List FeatureComputation) (dflt : Option (List String))
    (labels : Option PyLabels) (keys : List String) (r : ConfigResult)
    (h : dataset_from_config config dataF segments (some uf) dflt labels keys
          = .ok r) :
    r.space.features = uf ++ (configDerived dflt keys dataF config).1
    ∧ r.ds.feature_names
        = uf.map (fun f => f.name) ++ (configDerived dflt keys dataF config).2.1
    ∧ r.ds.nominal_features
        = uf.map (fun f => f.is_nominal) ++ (configDerived dflt keys dataF config).2.2
    ∧ r.space.features.length = r.ds.feature_names.length := by
  obtain ⟨h1, h2, h3, h4, -⟩ :=
    dataset_from_config_fields config dataF segments (some uf) dflt labels keys r h
  refine ⟨h2.trans h1, h3, h4, ?_⟩
  rw [h2.trans h1, h3]
  simp [(configDerived_length dflt keys dataF config).1]

/-- Claim C4: dataset_from_config appends every config-derived feature
computation to the very list object the caller passed as user_features
(features is an alias of it), so after the call that list holds the user
features followed by all config-derived ones, and the FeatureSpace is built
from exactly that mutated list. -/
theorem C4_user_features_mutated_in_place (config : List ConfigEntry)
    (dataF : String → String) (segments : Option (List Segment))
    (uf : List FeatureComputation) (dflt : Option (List String))
    (labels : Option PyLabels) (keys : List String) (r : ConfigResult)
    (h : dataset_from_config config dataF segments (some uf) dflt labels keys
          = .ok r) :
    r.user_features_after = uf ++ (configDerived dflt keys dataF config).1
    ∧ r.space.features = r.user_features_after := by
  obtain ⟨h1, h2, -, -, -⟩ :=
    dataset_from_config_fields config dataF segments (some uf) dflt labels keys r h
  exact ⟨h1, h2⟩

/-- Claim C5: a config whose first entry leaves apply_default_statistics at
its default of true makes dataset_from_config raise TypeError when
default_statistics is omitted, because set(None) is taken on line 159. -/
theorem C5_missing_default_statistics_type_error (e : ConfigEntry)
    (rest : List ConfigEntry) (dataF : String → String)
    (segments : Option (List Segment))
    (user_features : Option (List FeatureComputation)) (labels : Option PyLabels)
    (keys : List String)
    (h : e.apply_default_statistics.getD true = true) :
    dataset_from_config (e :: rest) dataF segments user_features none labels keys
      = .error (.typeError "NoneType object is not iterable") := by
  have hs : entryStatistics none e
      = .error (.typeError "NoneType object is not iterable") := by
    unfold entryStatistics
    rw [h]
    rfl
  unfold dataset_from_config runConfig processEntry
  rw [hs]

/-- Claim C5 witness: a concrete one-entry config with
apply_default_statistics absent and default_statistics omitted. -/
theorem C5_witness :
    dataset_from_config
      [{ signal_name := "s1", display_name := none, statistics := some ["mean"],
         apply_default_statistics := none, is_nominal := none }]
      (fun _ => "sig") none none none none []
      = .error (.typeError "NoneType object is not iterable") :=
  C5_missing_default_statistics_type_error
    { signal_name := "s1", display_name := none, statistics := some ["mean"],
      apply_default_statistics := none, is_nominal := none }
    [] (fun _ => "sig") none none none [] rfl

/-- Claim C6: with apply_default_statistics true, the statistic list
processed for an entry is its explicit statistics first, followed by
exactly those default_statistics not already present, each appearing once;
every appended feature name is the display name and the statistic joined by
an underscore, and every appended flag is the entry's is_nominal. -/
theorem C6_effective_statistics (e : ConfigEntry) (d : List String)
    (dataF : String → String) (keys : List String) (uf : List FeatureComputation)
    (labels : Option PyLabels) (r : ConfigResult)
    (hads : e.apply_default_statistics.getD true = true)
    (h : dataset_from_config [e] dataF none (some uf) (some d) labels keys = .ok r) :
    r.ds.feature_names
      = uf.map (fun f => f.name)
        ++ (e.statistics.getD [] ++ pySetDiff d (e.statistics.getD [])).map
            (fun s => e.display_name.getD e.signal_name ++ "_" ++ s)
    ∧ r.ds.nominal_features
      = uf.map (fun f => f.is_nominal)
        ++ (e.statistics.getD [] ++ pySetDiff d (e.statistics.getD [])).map
            (fun _ => e.is_nominal.getD false)
    ∧ (pySetDiff d (e.statistics.getD [])).Nodup
    ∧ (∀ x, x ∈ pySetDiff d (e.statistics.getD [])
          ↔ (x ∈ d ∧ x ∉ e.statistics.getD [])) := by
  obtain ⟨-, -, h3, h4, -⟩ :=
    dataset_from_config_fields [e] dataF none (some uf) (some d) labels keys r h
  have hval : entryStatsVal (some d) e
      = e.statistics.getD [] ++ pySetDiff d (e.statistics.getD []) := by
    unfold entryStatsVal
    rw [hads]
    rfl
  refine ⟨?_, ?_, pySetDiff_nodup d _, fun x => pySetDiff_mem d _ x⟩
  · rw [h3]
    simp [configDerived, hval]
  · rw [h4]
    simp [configDerived, hval]

/-- Claim C6 witness: one entry on signal s1 with no explicit statistics,
default statistic m: the set difference is the one default, the produced
name joins s1 and m with an underscore, the flag is the default false. -/
theorem C6_witness :
    (({ feature_space := .ref (.arr [[()]] (some 1)), feature_names := ["s1_m"],
        nominal_features := [false] } : DataSet).feature_names
      = ([] : List FeatureComputation).map (fun f => f.name)
        ++ (([] : List String) ++ pySetDiff ["m"] []).map
            (fun s => "s1" ++ "_" ++ s))
    ∧ (({ feature_space := .ref (.arr [[()]] (some 1)), feature_names := ["s1_m"],
          nominal_features := [false] } : DataSet).nominal_features
      = ([] : List FeatureComputation).map (fun f => f.is_nominal)
        ++ (([] : List String) ++ pySetDiff ["m"] []).map (fun _ => false))
    ∧ (pySetDiff ["m"] []).Nodup
    ∧ (∀ x, x ∈ pySetDiff ["m"] []
          ↔ (x ∈ (["m"] : List String) ∧ x ∉ ([] : List String))) :=
  C6_effective_statistics
    { signal_name := "s1", display_name := none, statistics := none,
      apply_default_statistics := none, is_nominal := none }
    ["m"] (fun _ => "sig") [] [] none
    { user_features_after :=
        [{ signal := "sig", source := .named "m", name := "sig_m",
           is_nominal := false }],
      space :=
        { features :=
            [{ signal := "sig", source := .named "m", name := "sig_m",
               is_nominal := false }],
          segments := [Segment.whole] },
      ds := { feature_space := .ref (.arr [[()]] (some 1)),
              feature_names := ["s1_m"], nominal_features := [false] },
      dsLabels := none }
    rfl rfl

/-- Claim C7: a config entry with apply_default_statistics false and an
empty statistics list makes dataset_from_config fail with ValueError naming
the signal, while the concrete single-entry config with explicit statistic
mean on signal s1 and no default_statistics succeeds and produces the
feature name s1_mean. -/
theorem C7_empty_statistics_validation (e : ConfigEntry) (rest : List ConfigEntry)
    (dataF : String → String) (segments : Option (List Segment))
    (user_features : Option (List FeatureComputation)) (dflt : Option (List String))
    (labels : Option PyLabels) (keys : List String)
    (h1 : e.apply_default_statistics = some false)
    (h2 : e.statistics.getD [] = []) :
    dataset_from_config (e :: rest) dataF segments user_features dflt labels keys
      = .error (.valueError ("No statistics defined for " ++ e.signal_name))
    ∧ Except.map (fun r => r.ds.feature_names)
        (dataset_from_config
          [{ signal_name := "s1", display_name := none, statistics := some ["mean"],
             apply_default_statistics := some false, is_nominal := none }]
          (fun _ => "sig") none none none none [])
        = .ok ["s1_mean"] := by
  constructor
  · have hs : entryStatistics dflt e
        = .error (.valueError ("No statistics defined for " ++ e.signal_name)) := by
      unfold entryStatistics
      rw [h1, h2]
      rfl
    unfold dataset_from_config runConfig processEntry
    rw [hs]
  · rfl

/-- Claim C7 witness: a concrete entry with apply_default_statistics false
and an absent statistics list fails naming its signal, and the concrete
mean entry succeeds with the name s1_mean. -/
theorem C7_witness :
    (dataset_from_config
        [{ signal_name := "s2", display_name := none, statistics := none,
           apply_default_statistics := some false, is_nominal := none }]
        (fun _ => "sig") none none none none []
      = .error (.valueError ("No statistics defined for " ++ "s2")))
    ∧ Except.map (fun r => r.ds.feature_names)
        (dataset_from_config
          [{ signal_name := "s1", display_name := none, statistics := some ["mean"],
             apply_default_statistics := some false, is_nominal := none }]
          (fun _ => "sig") none none none none [])
        = .ok ["s1_mean"] :=
  C7_empty_statistics_validation
    { signal_name := "s2", display_name := none, statistics := none,
      apply_default_statistics := some false, is_nominal := none }
    [] (fun _ => "sig") none none none none [] rfl rfl

/-- Claim C1 witness: evaluating the amended statement on a concrete call
with one user feature and one config entry with explicit statistic a and a
custom display name. -/
theorem C1_witness :
    (({ features :=
          [{ signal := "v", source := .custom "c", name := "g1", is_nominal := false },
           { signal := "sigv", source := .named "a", name := "sigv_a",
             is_nominal := false }],
        segments := [Segment.whole] } : FeatureSpace).features
      = [{ signal := "v", source := .custom "c", name := "g1", is_nominal := false }]
        ++ (configDerived none [] (fun _ => "sigv")
            [{ signal_name := "t1", display_name := some "d1",
               statistics := some ["a"], apply_default_statistics := some false,
               is_nominal := none }]).1)
    ∧ (({ feature_space := .ref (.arr [[(), ()]] (some 2)),
          feature_names := ["g1", "d1_a"],
          nominal_features := [false, false] } : DataSet).feature_names
      = [({ signal := "v", source := .custom "c", name := "g1",
            is_nominal := false } : FeatureComputation)].map (fun f => f.name)
        ++ (configDerived none [] (fun _ => "sigv")
            [{ signal_name := "t1", display_name := some "d1",
               statistics := some ["a"], apply_default_statistics := some false,
               is_nominal := none }]).2.1)
    ∧ (({ feature_space := .ref (.arr [[(), ()]] (some 2)),
          feature_names := ["g1", "d1_a"],
          nominal_features := [false, false] } : DataSet).nominal_features
      = [({ signal := "v", source := .custom "c", name := "g1",
            is_nominal := false } : FeatureComputation)].map (fun f => f.is_nominal)
        ++ (configDerived none [] (fun _ => "sigv")
            [{ signal_name := "t1", display_name := some "d1",
               statistics := some ["a"], apply_default_statistics := some false,
               is_nominal := none }]).2.2)
    ∧ (({ features :=
            [{ signal := "v", source := .custom "c", name := "g1",
               is_nominal := false },
             { signal := "sigv", source := .named "a", name := "sigv_a",
               is_nominal := false }],
          segments := [Segment.whole] } : FeatureSpace).features.length
        = ({ feature_space := .ref (.arr [[(), ()]] (some 2)),
             feature_names := ["g1", "d1_a"],
             nominal_features := [false, false] } : DataSet).feature_names.length) :=
  C1_config_features_reach_matrix
    [{ signal_name := "t1", display_name := some "d1", statistics := some ["a"],
       apply_default_statistics := some false, is_nominal := none }]
    (fun _ => "sigv") none
    [{ signal := "v", source := .custom "c", name := "g1", is_nominal := false }]
    none none []
    { user_features_after :=
        [{ signal := "v", source := .custom "c", name := "g1", is_nominal := false },
         { signal := "sigv", source := .named "a", name := "sigv_a",
           is_nominal := false }],
      space :=
        { features :=
            [{ signal := "v", source := .custom "c", name := "g1",
               is_nominal := false },
             { signal := "sigv", source := .named "a", name := "sigv_a",
               is_nominal := false }],
          segments := [Segment.whole] },
      ds := { feature_space := .ref (.arr [[(), ()]] (some 2)),
              feature_names := ["g1", "d1_a"],
              nominal_features := [false, false] },
      dsLabels := none }
    rfl

/-- Claim C4 witness: evaluating the claim on a concrete call with one user
feature and one config entry with explicit statistic m: the post-call
user_features list is the user feature followed by the derived one, and the
FeatureSpace is built from that list. -/
theorem C4_witness :
    (({ user_features_after :=
          [{ signal := "u", source := .named "z", name := "f0", is_nominal := true },
           { signal := "sig", source := .named "m", name := "sig_m",
             is_nominal := false }],
        space :=
          { features :=
              [{ signal := "u", source := .named "z", name := "f0",
                 is_nominal := true },
               { signal := "sig", source := .named "m", name := "sig_m",
                 is_nominal := false }],
            segments := [Segment.whole] },
        ds := { feature_space := .ref (.arr [[(), ()]] (some 2)),
                feature_names := ["f0", "s4_m"],
                nominal_features := [true, false] },
        dsLabels := none } : ConfigResult).user_features_after
      = [{ signal := "u", source := .named "z", name := "f0", is_nominal := true }]
        ++ (configDerived none [] (fun _ => "sig")
            [{ signal_name := "s4", display_name := none, statistics := some ["m"],
               apply_default_statistics := some false, is_nominal := none }]).1)
    ∧ (({ user_features_after :=
            [{ signal := "u", source := .named "z", name := "f0",
               is_nominal := true },
             { signal := "sig", source := .named "m", name := "sig_m",
               is_nominal := false }],
          space :=
            { features :=
                [{ signal := "u", source := .named "z", name := "f0",
                   is_nominal := true },
                 { signal := "sig", source := .named "m", name := "sig_m",
                   is_nominal := false }],
              segments := [Segment.whole] },
          ds := { feature_space := .ref (.arr [[(), ()]] (some 2)),
                  feature_names := ["f0", "s4_m"],
                  nominal_features := [true, false] },
          dsLabels := none } : ConfigResult).space.features
        = ({ user_features_after :=
               [{ signal := "u", source := .named "z", name := "f0",
                  is_nominal := true },
                { signal := "sig", source := .named "m", name := "sig_m",
                  is_nominal := false }],
             space :=
               { features :=
                   [{ signal := "u", source := .named "z", name := "f0",
                      is_nominal := true },
                    { signal := "sig", source := .named "m", name := "sig_m",
                      is_nominal := false }],
                 segments := [Segment.whole] },
             ds := { feature_space := .ref (.arr [[(), ()]] (some 2)),
                     feature_names := ["f0", "s4_m"],
                     nominal_features := [true, false] },
             dsLabels := none } : ConfigResult).user_features_after) :=
  C4_user_features_mutated_in_place
    [{ signal_name := "s4", display_name := none, statistics := some ["m"],
       apply_default_statistics := some false, is_nominal := none }]
    (fun _ => "sig") none
    [{ signal := "u", source := .named "z", name := "f0", is_nominal := true }]
    none none []
    { user_features_after :=
        [{ signal := "u", source := .named "z", name := "f0", is_nominal := true },
         { signal := "sig", source := .named "m", name := "sig_m",
           is_nominal := false }],
      space :=
        { features :=
            [{ signal := "u", source := .named "z", name := "f0",
               is_nominal := true },
             { signal := "sig", source := .named "m", name := "sig_m",
               is_nominal := false }],
          segments := [Segment.whole] },
      ds := { feature_space := .ref (.arr [[(), ()]] (some 2)),
              feature_names := ["f0", "s4_m"],
              nominal_features := [true, false] },
      dsLabels := none }
    rfl
